import Mathlib

/-!
Verification of the MatAnyone launcher (`start.py`) against its
natural-language specification.

The launcher is a self-bootstrapping script: it checks whether the current
interpreter is the virtual-environment interpreter, provisions the
environment if needed, re-executes itself inside it, verifies the PyTorch
backend, installs dependencies and launches the Gradio demo.

The shallow embedding below models each Python function of `start.py` as a
pure Lean function.  External state (the platform, filesystem facts, the
results of every subprocess invocation, and the point at which a pending
keyboard interrupt fires, if any) is collected in a `World` record that is
threaded through the pipeline.  Each modelled function returns a `PRes`:
how control leaves the function (`Flow`), the external commands it invoked
(`Effect` trace), the warnings it printed (`Warn` trace), and the
suspension point at which the pending interrupt actually fired, if it did.
-/

namespace StartPy

/-- `sys.platform` values distinguished by `start.py`. -/
inductive Platform
  | win32
  | linux
  | darwin
  | other
deriving DecidableEq, Repr

/-- The points of `start.py` at which the process is in a bounded sleep or
blocked waiting on a spawned subprocess, i.e. where a keyboard interrupt
can be delivered while the script is suspended. -/
inductive SuspensionPoint
  | py311CheckRun   -- subprocess.run of the py -3.11 version probe (line 41)
  | venvCreateRun   -- subprocess.run creating the venv (line 62)
  | earlyWarnSleep  -- time.sleep(3) after the nvidia-smi warning (line 90)
  | pipUpgradeRun   -- subprocess.run upgrading pip (line 217)
  | torchInstallRun -- subprocess.run installing torch (line 130)
  | countdownSleep  -- time.sleep(1) loop of the CPU countdown (lines 249-251)
  | reqInstallRun   -- subprocess.run installing requirements.txt (line 149)
  | demoWait        -- subprocess.run of the demo app (line 184)
deriving DecidableEq, Repr

/-- The externally visible commands the launcher can invoke. -/
inductive Effect
  | venvCreate        -- python -m venv .venv
  | execvRelaunch     -- os.execv of the venv interpreter
  | spawnWaitFallback -- hypothetical spawn-and-wait relaunch fallback
  | pipUpgrade        -- pip install --upgrade pip
  | torchInstall      -- pip install torch torchvision torchaudio
  | countdown         -- the visible 5-second CPU-fallback countdown
  | reqInstall        -- pip install -r requirements.txt
  | demoRun           -- python app.py ...
deriving DecidableEq, Repr

/-- Warnings (log-and-continue messages) printed by the launcher. -/
inductive Warn
  | nvidiaSmiMissing
  | pipUpgradeFailed
  | torchNoCudaReinstall
  | cpuFallbackWarning
  | reqMissing
  | ffmpegMissing
deriving DecidableEq, Repr

/-- How a run of the whole script terminates. -/
inductive Outcome
  | normal                           -- main returned normally
  | replaced                         -- os.execv succeeded: process image replaced
  | exited (code : Int) (msg : String) -- sys.exit with the given code
  | interruptEscape                  -- KeyboardInterrupt propagated uncaught
deriving DecidableEq, Repr

/-- `true` exactly for a graceful user abort: `sys.exit(0)`. -/
def Outcome.isGracefulZero : Outcome → Bool
  | .exited c _ => c == 0
  | _ => false

/-- How control leaves a modelled function. -/
inductive Flow
  | cont
  | halt (o : Outcome)
deriving DecidableEq, Repr

/-- Result of a modelled call: control flow, invoked commands, printed
warnings, and the suspension point at which a pending interrupt fired. -/
structure PRes where
  flow : Flow
  effects : List Effect
  warns : List Warn
  fired : Option SuspensionPoint
deriving DecidableEq, Repr

/-- Result of a whole run of `main`. -/
structure Run where
  outcome : Outcome
  effects : List Effect
  warns : List Warn
  fired : Option SuspensionPoint
deriving DecidableEq, Repr

/-- Sequencing of two modelled calls: if the first halts (sys.exit or an
escaping interrupt) the second never runs; otherwise traces accumulate. -/
def seq (r s : PRes) : PRes :=
  match r.flow with
  | .halt _ => r
  | .cont => ⟨s.flow, r.effects ++ s.effects, r.warns ++ s.warns, s.fired⟩

/-- The parsed CLI configuration (argparse result, lines 224-229).
`port` defaults to `none` (Python `None`); likewise the string options. -/
structure ArgsConfig where
  port : Option Int
  device : Option String
  sam_model_type : Option String
  mask_save : Bool
deriving DecidableEq, Repr

/-- `launch_demo`, lines 168-180: the downstream command vector.
Mirrors Python truthiness: `if args.port:` is false for `None` and `0`;
`if args.device:` is false for `None` and the empty string. -/
def launch_cmd (exe : String) (a : ArgsConfig) : List String :=
  let cmd0 := [exe, "app.py"]
  let cmd1 := match a.port with
              | some n => if n ≠ 0 then cmd0 ++ ["--port", toString n] else cmd0
              | none => cmd0
  let cmd2 := match a.device with
              | some d => if d ≠ "" then cmd1 ++ ["--device", d] else cmd1
              | none => cmd1
  let cmd3 := match a.sam_model_type with
              | some t => if t ≠ "" then cmd2 ++ ["--sam_model_type", t] else cmd2
              | none => cmd2
  if a.mask_save then cmd3 ++ ["--mask_save"] else cmd3

/-- Spec-side decomposition: the tokens contributed by `config.port`. -/
def portArgs : Option Int → List String
  | some n => if n ≠ 0 then ["--port", toString n] else []
  | none => []

/-- Spec-side decomposition: the tokens contributed by `config.device`. -/
def deviceArgs : Option String → List String
  | some d => if d ≠ "" then ["--device", d] else []
  | none => []

/-- Spec-side decomposition: the tokens contributed by `config.modelType`. -/
def samArgs : Option String → List String
  | some t => if t ≠ "" then ["--sam_model_type", t] else []
  | none => []

/-- Spec-side decomposition: the tokens contributed by `config.maskSave`. -/
def maskArgs : Bool → List String
  | true => ["--mask_save"]
  | false => []

theorem launch_cmd_decomp (exe : String) (a : ArgsConfig) :
    launch_cmd exe a
      = [exe, "app.py"] ++ portArgs a.port ++ deviceArgs a.device
          ++ samArgs a.sam_model_type ++ maskArgs a.mask_save := by
  rcases a with ⟨p, d, s, m⟩
  cases p <;> cases d <;> cases s <;> cases m <;>
    simp only [launch_cmd, portArgs, deviceArgs, samArgs, maskArgs] <;>
    split_ifs <;> simp_all

/-- C2. For every parsed configuration, the downstream argument vector is
the program identifier followed exactly by the port, device, model-type
and mask-save groups, each empty when the corresponding field is unset
(or false); in particular the configuration
port 7860, device cuda, maskSave true, modelType unset yields
[program, app.py, --port, 7860, --device, cuda, --mask_save] with no
--sam_model_type token. -/
theorem C2_buildArgs :
    (∀ (exe : String) (a : ArgsConfig),
        launch_cmd exe a
          = [exe, "app.py"] ++ portArgs a.port ++ deviceArgs a.device
              ++ samArgs a.sam_model_type ++ maskArgs a.mask_save)
    ∧ portArgs none = []
    ∧ deviceArgs none = []
    ∧ samArgs none = []
    ∧ maskArgs false = []
    ∧ launch_cmd "python" ⟨some 7860, some "cuda", none, true⟩
        = ["python", "app.py", "--port", "7860", "--device", "cuda", "--mask_save"]
    ∧ "--sam_model_type" ∉ launch_cmd "python" ⟨some 7860, some "cuda", none, true⟩ := by
  refine ⟨launch_cmd_decomp, rfl, rfl, rfl, rfl, by decide, by decide⟩

/-! ### Diagnostic messages (abbreviated ASCII forms of the printed text) -/

def noPython311Msg : String :=
  "Error: Could not find Python 3.11."

def venvCreateFailMsg : String :=
  "Error: Failed to create virtual environment even with a valid Python."

def manualActivationMsg : String :=
  "Failed to relaunch script in virtual environment. Please try activating the environment manually and running the script again."

def versionFailMsg : String :=
  "Error: MatAnyone requires Python 3.11, but the virtual environment is running a different version."

def torchInstallFailMsg : String :=
  "Error: Failed to install PyTorch with CUDA support. Please visit pytorch.org and install it manually."

def torchImportFailMsg : String :=
  "Error: PyTorch could not be imported after installation. Setup failed."

def reqFailMsg : String :=
  "Error: Failed to install dependencies from requirements.txt."

def abortedByUserMsg : String :=
  "Aborted by user. Exiting."

def demoInterruptMsg : String :=
  "Demo interrupted by user. Exiting gracefully."

/-- Everything of `str(CalledProcessError)` before the exit code. -/
def demoFailPre (cmd : List String) : String :=
  "Error: Gradio demo exited with error: Command " ++ String.intercalate " " cmd
    ++ " returned non-zero exit status "

/-- The message of the `sys.exit` in `launch_demo`, line 186: it wraps
`str(CalledProcessError)`, which names the exit code of the child. -/
def demoFailMsg (cmd : List String) (n : Int) : String :=
  demoFailPre cmd ++ toString n ++ "."

/-! ### The world: platform identity, filesystem facts and subprocess results -/

/-- All external state consumed by one run of `start.py`.  Subprocess
outcomes (`...Ok` fields) and filesystem facts are inputs of the model;
`interruptAt` names the suspension point, if any, at which a keyboard
interrupt is delivered during the run. -/
structure World where
  platform : Platform
  normcase : String → String      -- os.path.normcase
  abspath : String → String       -- os.path.abspath
  sysExecutable : String          -- sys.executable
  venvExists : Bool               -- os.path.isdir(VENV_DIR)
  pyLauncher : Bool               -- shutil.which("py") is not None
  py311Ok : Bool                  -- `py -3.11 --version` succeeds
  python311Found : Bool           -- shutil.which("python3.11") is not None
  venvCreateOk : Bool             -- `python -m venv .venv` succeeds
  execvOk : Bool                  -- os.execv does not raise OSError
  nvidiaSmi : Bool                -- shutil.which("nvidia-smi") is not None
  pipUpgradeOk : Bool             -- `pip install --upgrade pip` succeeds
  versionInfo : Int × Int         -- sys.version_info[:2]
  torchImportOk : Bool            -- `import torch` succeeds
  cudaAvailable : Bool            -- torch.cuda.is_available()
  torchInstallOk : Bool           -- the torch pip install succeeds
  torchImportOkPost : Bool        -- `import torch` succeeds after an install
  cudaAvailablePost : Bool        -- cuda availability of a freshly installed torch
  reqFileExists : Bool            -- os.path.isfile(requirements.txt)
  reqInstallOk : Bool             -- `pip install -r requirements.txt` succeeds
  ffmpegFound : Bool              -- shutil.which("ffmpeg") is not None
  args : ArgsConfig               -- parsed CLI flags
  demoExit : Int                  -- exit code of the downstream app.py
  interruptAt : Option SuspensionPoint

/-- The fixed environment directory name (line 14). -/
def VENV_DIR : String := ".venv"

/-- `get_venv_python`, lines 18-24: the venv interpreter path, computed
from the platform (separators abstracted to "/"). -/
def get_venv_python (platform : Platform) (abspath : String → String) : String :=
  if platform = .win32 then abspath (VENV_DIR ++ "/Scripts/python.exe")
  else abspath (VENV_DIR ++ "/bin/python")

/-- The relaunch guard of `main`, line 196: normalized-path inequality
between the running interpreter and the venv interpreter. -/
def relaunch_guard (normcase : String → String) (current target : String) : Bool :=
  normcase current != normcase target

/-- `create_venv_if_needed`, lines 26-67.  Returns immediately when the
directory exists; otherwise locates Python 3.11 (the `py` launcher on
Windows first, then `python3.11` on PATH), exiting 1 when none is found,
and runs the creation command, exiting 1 when it fails.  Neither
subprocess wait catches KeyboardInterrupt. -/
def create_venv_if_needed (platform : Platform)
    (venvExists pyLauncher py311Ok python311Found createOk : Bool)
    (intr : Option SuspensionPoint) : PRes :=
  if venvExists then ⟨.cont, [], [], none⟩
  else if platform = .win32 ∧ pyLauncher ∧ intr = some .py311CheckRun then
    ⟨.halt .interruptEscape, [], [], some .py311CheckRun⟩
  else
    if ¬(platform = .win32 ∧ pyLauncher ∧ py311Ok) ∧ ¬python311Found then
      ⟨.halt (.exited 1 noPython311Msg), [], [], none⟩
    else if intr = some .venvCreateRun then
      ⟨.halt .interruptEscape, [.venvCreate], [], some .venvCreateRun⟩
    else if createOk then ⟨.cont, [.venvCreate], [], none⟩
    else ⟨.halt (.exited 1 venvCreateFailMsg), [.venvCreate], [], none⟩

/-- `check_nvidia_gpu_early`, lines 71-90: on win32/linux only, when
`nvidia-smi` is absent it prints a warning and sleeps 3 seconds.  The
sleep is not wrapped in any KeyboardInterrupt handler. -/
def check_nvidia_gpu_early (platform : Platform) (nvidiaSmi : Bool)
    (intr : Option SuspensionPoint) : PRes :=
  if ¬(platform = .win32 ∨ platform = .linux) then ⟨.cont, [], [], none⟩
  else if nvidiaSmi then ⟨.cont, [], [], none⟩
  else if intr = some .earlyWarnSleep then
    ⟨.halt .interruptEscape, [], [.nvidiaSmiMissing], some .earlyWarnSleep⟩
  else ⟨.cont, [], [.nvidiaSmiMissing], none⟩

/-- The pip self-upgrade of `main`, lines 214-220: a subprocess run whose
`CalledProcessError` is caught and turned into a warning; the pipeline
always continues.  KeyboardInterrupt during the run is not caught. -/
def pip_upgrade_step (ok : Bool) (intr : Option SuspensionPoint) : PRes :=
  if intr = some .pipUpgradeRun then
    ⟨.halt .interruptEscape, [.pipUpgrade], [], some .pipUpgradeRun⟩
  else if ok then ⟨.cont, [.pipUpgrade], [], none⟩
  else ⟨.cont, [.pipUpgrade], [.pipUpgradeFailed], none⟩

/-- `ensure_python_version`, lines 92-99: exits 1 unless
`sys.version_info[:2] == (3, 11)`. -/
def ensure_python_version (v : Int × Int) : PRes :=
  if v = (3, 11) then ⟨.cont, [], [], none⟩
  else ⟨.halt (.exited 1 versionFailMsg), [], [], none⟩

/-- `ensure_torch_with_cuda`, lines 101-141: returns at once when torch
imports on macOS, or imports with CUDA elsewhere; otherwise runs the pip
install (warning first when torch was present without CUDA), exiting 1
via `sys.exit(str)` when the install fails. -/
def ensure_torch_with_cuda (platform : Platform)
    (importOk cudaAvail installOk : Bool)
    (intr : Option SuspensionPoint) : PRes :=
  if importOk ∧ platform = .darwin then ⟨.cont, [], [], none⟩
  else if importOk ∧ cudaAvail then ⟨.cont, [], [], none⟩
  else
    if intr = some .torchInstallRun then
      ⟨.halt .interruptEscape, [.torchInstall],
        if importOk then [Warn.torchNoCudaReinstall] else [], some .torchInstallRun⟩
    else if installOk then
      ⟨.cont, [.torchInstall], if importOk then [Warn.torchNoCudaReinstall] else [], none⟩
    else
      ⟨.halt (.exited 1 torchInstallFailMsg), [.torchInstall],
        if importOk then [Warn.torchNoCudaReinstall] else [], none⟩

/-- The post-install verification block of `main`, lines 232-259:
re-imports torch (a cached module when the first import succeeded) and
re-checks CUDA; without CUDA on a non-macOS platform it prints the strong
warning and the 5-second countdown, during which KeyboardInterrupt is
caught and turned into `sys.exit(0)`. -/
def torch_verify (platform : Platform)
    (didInstall importOk cudaAvail importOkPost cudaAvailPost : Bool)
    (intr : Option SuspensionPoint) : PRes :=
  -- Python module caching: if the first `import torch` succeeded, the
  -- re-import sees the already-loaded module, even after a reinstall;
  -- only after an install that followed a failed import is the fresh
  -- module observed.
  if ¬(importOk ∨ (didInstall ∧ importOkPost)) then
    ⟨.halt (.exited 1 torchImportFailMsg), [], [], none⟩
  else if platform ≠ .darwin ∧ ¬(if importOk then cudaAvail else cudaAvailPost) then
    if intr = some .countdownSleep then
      ⟨.halt (.exited 0 abortedByUserMsg), [.countdown], [.cpuFallbackWarning],
        some .countdownSleep⟩
    else ⟨.cont, [.countdown], [.cpuFallbackWarning], none⟩
  else ⟨.cont, [], [], none⟩

/-- `install_requirements`, lines 143-155: a missing manifest is only a
warning; a failing install is `sys.exit(str)` (exit code 1). -/
def install_requirements (reqExists installOk : Bool)
    (intr : Option SuspensionPoint) : PRes :=
  if reqExists then
    if intr = some .reqInstallRun then
      ⟨.halt .interruptEscape, [.reqInstall], [], some .reqInstallRun⟩
    else if installOk then ⟨.cont, [.reqInstall], [], none⟩
    else ⟨.halt (.exited 1 reqFailMsg), [.reqInstall], [], none⟩
  else ⟨.cont, [], [.reqMissing], none⟩

/-- `check_ffmpeg`, lines 157-160: warning only. -/
def check_ffmpeg (found : Bool) : PRes :=
  if found then ⟨.cont, [], [], none⟩
  else ⟨.cont, [], [.ffmpegMissing], none⟩

/-- `launch_demo`, lines 162-186: runs the built command and waits; a
nonzero child exit raises `CalledProcessError`, caught and rethrown as
`sys.exit` (code 1) with a message wrapping the child exit code. -/
def launch_demo (exe : String) (a : ArgsConfig) (demoExit : Int)
    (intr : Option SuspensionPoint) : PRes :=
  if intr = some .demoWait then
    ⟨.halt .interruptEscape, [.demoRun], [], some .demoWait⟩
  else if demoExit = 0 then ⟨.cont, [.demoRun], [], none⟩
  else ⟨.halt (.exited 1 (demoFailMsg (launch_cmd exe a) demoExit)), [.demoRun], [], none⟩

/-- The try/except around the launch in `main`, lines 266-275: a
KeyboardInterrupt escaping `launch_demo` becomes `sys.exit(0)`.  (The
`except Exception` arm, line 273, does not catch `SystemExit`, so the
`sys.exit` raised inside `launch_demo` passes through unchanged.) -/
def launch_demo_guarded (exe : String) (a : ArgsConfig) (demoExit : Int)
    (intr : Option SuspensionPoint) : PRes :=
  match launch_demo exe a demoExit intr with
  | ⟨.halt .interruptEscape, es, ws, f⟩ => ⟨.halt (.exited 0 demoInterruptMsg), es, ws, f⟩
  | r => r

/-- The post-bootstrap part of `main`, lines 209-275, in source order:
GPU hint, pip upgrade, version check, torch check, torch verification,
requirements install, ffmpeg check, demo launch.  (The argparse step,
lines 224-229, is modelled by the pre-parsed `args` field.  The
`didInstall` argument of `torch_verify` records whether the torch step
actually ran the installer.) -/
def main_in_venv (w : World) : PRes :=
  seq (check_nvidia_gpu_early w.platform w.nvidiaSmi w.interruptAt)
    (seq (pip_upgrade_step w.pipUpgradeOk w.interruptAt)
      (seq (ensure_python_version w.versionInfo)
        (seq (ensure_torch_with_cuda w.platform w.torchImportOk w.cudaAvailable
            w.torchInstallOk w.interruptAt)
          (seq (torch_verify w.platform
              ((ensure_torch_with_cuda w.platform w.torchImportOk w.cudaAvailable
                w.torchInstallOk w.interruptAt).effects.contains .torchInstall)
              w.torchImportOk w.cudaAvailable w.torchImportOkPost w.cudaAvailablePost
              w.interruptAt)
            (seq (install_requirements w.reqFileExists w.reqInstallOk w.interruptAt)
              (seq (check_ffmpeg w.ffmpegFound)
                (launch_demo_guarded w.sysExecutable w.args w.demoExit w.interruptAt)))))))

/-- Packaging of a finished pipeline into a whole-run result. -/
def finalize (r : PRes) : Run :=
  match r.flow with
  | .halt o => ⟨o, r.effects, r.warns, r.fired⟩
  | .cont => ⟨.normal, r.effects, r.warns, r.fired⟩

/-- The relaunch step of `main`, lines 197-206: after provisioning, the
process image is replaced via `os.execv`; an `OSError` from `os.execv`
leads to `sys.exit(1)` with manual-activation guidance — there is no
spawn-and-wait fallback in the code. -/
def relaunch_and_exit (r : PRes) (execvOk : Bool) : Run :=
  match r.flow with
  | .halt o => ⟨o, r.effects, r.warns, r.fired⟩
  | .cont =>
    if execvOk then ⟨.replaced, r.effects ++ [.execvRelaunch], r.warns, r.fired⟩
    else ⟨.exited 1 manualActivationMsg, r.effects ++ [.execvRelaunch], r.warns, r.fired⟩

/-- `main`, lines 189-275.  The bootstrap guard compares normalized
interpreter paths; when they differ the venv is provisioned if needed and
the process relaunches itself; otherwise the post-bootstrap pipeline
runs. -/
def main (w : World) : Run :=
  if relaunch_guard w.normcase (w.abspath w.sysExecutable)
      (get_venv_python w.platform w.abspath) then
    relaunch_and_exit
      (create_venv_if_needed w.platform w.venvExists w.pyLauncher w.py311Ok
        w.python311Found w.venvCreateOk w.interruptAt)
      w.execvOk
  else finalize (main_in_venv w)

/-! ### Basic lemmas about sequencing and the component functions -/

theorem seq_cont_eq {r : PRes} (s : PRes) (h : r.flow = .cont) :
    seq r s = ⟨s.flow, r.effects ++ s.effects, r.warns ++ s.warns, s.fired⟩ := by
  unfold seq
  rw [h]

theorem seq_halt_eq {r : PRes} (s : PRes) {o : Outcome} (h : r.flow = .halt o) :
    seq r s = r := by
  unfold seq
  rw [h]

theorem seq_effects_mem {r s : PRes} {e : Effect} (h : e ∈ (seq r s).effects) :
    e ∈ r.effects ∨ e ∈ s.effects := by
  unfold seq at h
  cases hf : r.flow <;> rw [hf] at h
  · exact (List.mem_append.mp h)
  · exact Or.inl h

theorem finalize_effects (r : PRes) : (finalize r).effects = r.effects := by
  unfold finalize
  cases hf : r.flow <;> rfl

theorem finalize_fired (r : PRes) : (finalize r).fired = r.fired := by
  unfold finalize
  cases hf : r.flow <;> rfl

theorem finalize_warns (r : PRes) : (finalize r).warns = r.warns := by
  unfold finalize
  cases hf : r.flow <;> rfl

/-- Branch-free description of the guarded demo launch. -/
theorem ldg_eq (exe : String) (a : ArgsConfig) (dx : Int) (i : Option SuspensionPoint) :
    launch_demo_guarded exe a dx i =
      if i = some .demoWait then
        ⟨.halt (.exited 0 demoInterruptMsg), [.demoRun], [], some .demoWait⟩
      else if dx = 0 then ⟨.cont, [.demoRun], [], none⟩
      else ⟨.halt (.exited 1 (demoFailMsg (launch_cmd exe a) dx)), [.demoRun], [], none⟩ := by
  unfold launch_demo_guarded launch_demo
  repeat' split
  all_goals simp_all

/-! #### Branch enumerations: each component returns one of its explicit
branch results.  These drive all the effect- and interrupt-trace lemmas
below. -/

theorem cv_cases (p : Platform) (a b c d k : Bool) (i : Option SuspensionPoint) :
    create_venv_if_needed p a b c d k i = ⟨.cont, [], [], none⟩
    ∨ create_venv_if_needed p a b c d k i
        = ⟨.halt .interruptEscape, [], [], some .py311CheckRun⟩
    ∨ create_venv_if_needed p a b c d k i = ⟨.halt (.exited 1 noPython311Msg), [], [], none⟩
    ∨ create_venv_if_needed p a b c d k i
        = ⟨.halt .interruptEscape, [.venvCreate], [], some .venvCreateRun⟩
    ∨ create_venv_if_needed p a b c d k i = ⟨.cont, [.venvCreate], [], none⟩
    ∨ create_venv_if_needed p a b c d k i
        = ⟨.halt (.exited 1 venvCreateFailMsg), [.venvCreate], [], none⟩ := by
  unfold create_venv_if_needed
  repeat' split
  all_goals simp

theorem cnge_cases (p : Platform) (s : Bool) (i : Option SuspensionPoint) :
    check_nvidia_gpu_early p s i = ⟨.cont, [], [], none⟩
    ∨ check_nvidia_gpu_early p s i
        = ⟨.halt .interruptEscape, [], [.nvidiaSmiMissing], some .earlyWarnSleep⟩
    ∨ check_nvidia_gpu_early p s i = ⟨.cont, [], [.nvidiaSmiMissing], none⟩ := by
  unfold check_nvidia_gpu_early
  repeat' split
  all_goals simp

theorem pip_cases (b : Bool) (i : Option SuspensionPoint) :
    pip_upgrade_step b i = ⟨.halt .interruptEscape, [.pipUpgrade], [], some .pipUpgradeRun⟩
    ∨ pip_upgrade_step b i = ⟨.cont, [.pipUpgrade], [], none⟩
    ∨ pip_upgrade_step b i = ⟨.cont, [.pipUpgrade], [.pipUpgradeFailed], none⟩ := by
  unfold pip_upgrade_step
  repeat' split
  all_goals simp

theorem epv_cases (v : Int × Int) :
    ensure_python_version v = ⟨.cont, [], [], none⟩
    ∨ ensure_python_version v = ⟨.halt (.exited 1 versionFailMsg), [], [], none⟩ := by
  unfold ensure_python_version
  repeat' split
  all_goals simp

theorem torch_cases (p : Platform) (a b c : Bool) (i : Option SuspensionPoint) :
    ensure_torch_with_cuda p a b c i = ⟨.cont, [], [], none⟩
    ∨ ensure_torch_with_cuda p a b c i
        = ⟨.halt .interruptEscape, [.torchInstall], [.torchNoCudaReinstall], some .torchInstallRun⟩
    ∨ ensure_torch_with_cuda p a b c i
        = ⟨.halt .interruptEscape, [.torchInstall], [], some .torchInstallRun⟩
    ∨ ensure_torch_with_cuda p a b c i
        = ⟨.cont, [.torchInstall], [.torchNoCudaReinstall], none⟩
    ∨ ensure_torch_with_cuda p a b c i = ⟨.cont, [.torchInstall], [], none⟩
    ∨ ensure_torch_with_cuda p a b c i
        = ⟨.halt (.exited 1 torchInstallFailMsg), [.torchInstall], [.torchNoCudaReinstall], none⟩
    ∨ ensure_torch_with_cuda p a b c i
        = ⟨.halt (.exited 1 torchInstallFailMsg), [.torchInstall], [], none⟩ := by
  unfold ensure_torch_with_cuda
  repeat' split
  all_goals simp

theorem verify_cases (p : Platform) (a b c d k : Bool) (i : Option SuspensionPoint) :
    torch_verify p a b c d k i = ⟨.halt (.exited 1 torchImportFailMsg), [], [], none⟩
    ∨ torch_verify p a b c d k i
        = ⟨.halt (.exited 0 abortedByUserMsg), [.countdown], [.cpuFallbackWarning],
            some .countdownSleep⟩
    ∨ torch_verify p a b c d k i = ⟨.cont, [.countdown], [.cpuFallbackWarning], none⟩
    ∨ torch_verify p a b c d k i = ⟨.cont, [], [], none⟩ := by
  unfold torch_verify
  repeat' split
  all_goals simp

theorem req_cases (a b : Bool) (i : Option SuspensionPoint) :
    install_requirements a b i
        = ⟨.halt .interruptEscape, [.reqInstall], [], some .reqInstallRun⟩
    ∨ install_requirements a b i = ⟨.cont, [.reqInstall], [], none⟩
    ∨ install_requirements a b i = ⟨.halt (.exited 1 reqFailMsg), [.reqInstall], [], none⟩
    ∨ install_requirements a b i = ⟨.cont, [], [.reqMissing], none⟩ := by
  unfold install_requirements
  repeat' split
  all_goals simp

theorem ffmpeg_cases (b : Bool) :
    check_ffmpeg b = ⟨.cont, [], [], none⟩
    ∨ check_ffmpeg b = ⟨.cont, [], [.ffmpegMissing], none⟩ := by
  unfold check_ffmpeg
  repeat' split
  all_goals simp

theorem ldg_cases (exe : String) (a : ArgsConfig) (dx : Int) (i : Option SuspensionPoint) :
    launch_demo_guarded exe a dx i
        = ⟨.halt (.exited 0 demoInterruptMsg), [.demoRun], [], some .demoWait⟩
    ∨ launch_demo_guarded exe a dx i = ⟨.cont, [.demoRun], [], none⟩
    ∨ launch_demo_guarded exe a dx i
        = ⟨.halt (.exited 1 (demoFailMsg (launch_cmd exe a) dx)), [.demoRun], [], none⟩ := by
  rw [ldg_eq]
  repeat' split
  all_goals simp

/-! #### Effect traces of the individual components -/

theorem cv_effects_sub {p : Platform} {a b c d k : Bool} {i : Option SuspensionPoint}
    {e : Effect} (h : e ∈ (create_venv_if_needed p a b c d k i).effects) :
    e = .venvCreate := by
  rcases cv_cases p a b c d k i with hc | hc | hc | hc | hc | hc <;> rw [hc] at h <;> simp_all

theorem cnge_effects (p : Platform) (s : Bool) (i : Option SuspensionPoint) :
    (check_nvidia_gpu_early p s i).effects = [] := by
  unfold check_nvidia_gpu_early
  repeat' split
  all_goals rfl

theorem pip_effects (b : Bool) (i : Option SuspensionPoint) :
    (pip_upgrade_step b i).effects = [.pipUpgrade] := by
  unfold pip_upgrade_step
  repeat' split
  all_goals rfl

theorem epv_effects (v : Int × Int) : (ensure_python_version v).effects = [] := by
  unfold ensure_python_version
  repeat' split
  all_goals rfl

theorem torch_effects_sub {p : Platform} {a b c : Bool} {i : Option SuspensionPoint}
    {e : Effect} (h : e ∈ (ensure_torch_with_cuda p a b c i).effects) :
    e = .torchInstall := by
  rcases torch_cases p a b c i with hc | hc | hc | hc | hc | hc | hc <;>
    rw [hc] at h <;> simp_all

theorem verify_effects_sub {p : Platform} {a b c d k : Bool} {i : Option SuspensionPoint}
    {e : Effect} (h : e ∈ (torch_verify p a b c d k i).effects) :
    e = .countdown := by
  rcases verify_cases p a b c d k i with hc | hc | hc | hc <;> rw [hc] at h <;> simp_all

theorem req_effects_sub {a b : Bool} {i : Option SuspensionPoint}
    {e : Effect} (h : e ∈ (install_requirements a b i).effects) :
    e = .reqInstall := by
  rcases req_cases a b i with hc | hc | hc | hc <;> rw [hc] at h <;> simp_all

theorem ffmpeg_effects (b : Bool) : (check_ffmpeg b).effects = [] := by
  unfold check_ffmpeg
  repeat' split
  all_goals rfl

theorem ldg_effects (exe : String) (a : ArgsConfig) (dx : Int) (i : Option SuspensionPoint) :
    (launch_demo_guarded exe a dx i).effects = [.demoRun] := by
  rw [ldg_eq]
  repeat' split
  all_goals rfl

/-- Membership in the post-bootstrap trace comes from one of the eight
pipeline components. -/
theorem miv_effects_mem {w : World} {e : Effect} (h : e ∈ (main_in_venv w).effects) :
    e ∈ (check_nvidia_gpu_early w.platform w.nvidiaSmi w.interruptAt).effects
    ∨ e ∈ (pip_upgrade_step w.pipUpgradeOk w.interruptAt).effects
    ∨ e ∈ (ensure_python_version w.versionInfo).effects
    ∨ e ∈ (ensure_torch_with_cuda w.platform w.torchImportOk w.cudaAvailable
        w.torchInstallOk w.interruptAt).effects
    ∨ e ∈ (torch_verify w.platform
        ((ensure_torch_with_cuda w.platform w.torchImportOk w.cudaAvailable
          w.torchInstallOk w.interruptAt).effects.contains .torchInstall)
        w.torchImportOk w.cudaAvailable w.torchImportOkPost w.cudaAvailablePost
        w.interruptAt).effects
    ∨ e ∈ (install_requirements w.reqFileExists w.reqInstallOk w.interruptAt).effects
    ∨ e ∈ (check_ffmpeg w.ffmpegFound).effects
    ∨ e ∈ (launch_demo_guarded w.sysExecutable w.args w.demoExit w.interruptAt).effects := by
  unfold main_in_venv at h
  repeat' rcases seq_effects_mem h with h | h
  all_goals tauto

/-- The post-bootstrap pipeline can only invoke the five in-venv
commands: never environment creation, never a process replacement, never
a spawn-and-wait fallback. -/
theorem miv_effects_allowed {w : World} {e : Effect} (h : e ∈ (main_in_venv w).effects) :
    e = .pipUpgrade ∨ e = .torchInstall ∨ e = .countdown ∨ e = .reqInstall ∨ e = .demoRun := by
  rcases miv_effects_mem h with h | h | h | h | h | h | h | h
  · rw [cnge_effects] at h
    simp at h
  · rw [pip_effects] at h
    simp at h
    tauto
  · rw [epv_effects] at h
    simp at h
  · have h2 := torch_effects_sub h
    tauto
  · have h2 := verify_effects_sub h
    tauto
  · have h2 := req_effects_sub h
    tauto
  · rw [ffmpeg_effects] at h
    simp at h
  · rw [ldg_effects] at h
    simp at h
    tauto

/-- Membership in the whole-run trace: either from the bootstrap branch
(venv creation and the relaunch attempt) or from the in-venv pipeline. -/
theorem main_effects_mem {w : World} {e : Effect} (h : e ∈ (main w).effects) :
    (e ∈ (create_venv_if_needed w.platform w.venvExists w.pyLauncher w.py311Ok
        w.python311Found w.venvCreateOk w.interruptAt).effects ∨ e = .execvRelaunch)
    ∨ e ∈ (main_in_venv w).effects := by
  unfold main at h
  split at h
  · unfold relaunch_and_exit at h
    split at h
    · exact Or.inl (Or.inl h)
    · split at h
      all_goals
        rcases List.mem_append.mp h with h | h
        · exact Or.inl (Or.inl h)
        · simp at h
          exact Or.inl (Or.inr h)
  · rw [finalize_effects] at h
    exact Or.inr h

/-- Every command a whole run can invoke. -/
theorem main_effects_allowed {w : World} {e : Effect} (h : e ∈ (main w).effects) :
    e = .venvCreate ∨ e = .execvRelaunch ∨ e = .pipUpgrade ∨ e = .torchInstall
    ∨ e = .countdown ∨ e = .reqInstall ∨ e = .demoRun := by
  rcases main_effects_mem h with (h | h) | h
  · have h2 := cv_effects_sub h
    tauto
  · tauto
  · have h2 := miv_effects_allowed h
    tauto

/-! #### What a fired interrupt does to control flow

`FiredOk r` says: when a pending interrupt fires inside the call modelled
by `r`, it either fires at the CPU-fallback countdown or at the demo wait
and halts with `sys.exit(0)` (those are the only two suspension points
wrapped in a KeyboardInterrupt handler in `start.py`), or it fires at any
other suspension point and propagates as an uncaught KeyboardInterrupt. -/

def FiredOk (r : PRes) : Prop :=
  ∀ q, r.fired = some q →
    (q = .countdownSleep ∧ r.flow = .halt (.exited 0 abortedByUserMsg))
    ∨ (q = .demoWait ∧ r.flow = .halt (.exited 0 demoInterruptMsg))
    ∨ ((q ≠ .countdownSleep ∧ q ≠ .demoWait) ∧ r.flow = .halt .interruptEscape)

theorem firedOk_seq {r s : PRes} (hr : FiredOk r) (hs : FiredOk s) : FiredOk (seq r s) := by
  intro q hq
  unfold seq at hq ⊢
  cases hf : r.flow
  case cont =>
    simp only [hf] at hq ⊢
    exact hs q hq
  case halt o =>
    simp only [hf] at hq ⊢
    rcases hr q hq with ⟨h1, h2⟩ | ⟨h1, h2⟩ | ⟨h1, h2⟩ <;> rw [hf] at h2
    · exact Or.inl ⟨h1, h2⟩
    · exact Or.inr (Or.inl ⟨h1, h2⟩)
    · exact Or.inr (Or.inr ⟨h1, h2⟩)

theorem firedOk_cv (p : Platform) (a b c d k : Bool) (i : Option SuspensionPoint) :
    FiredOk (create_venv_if_needed p a b c d k i) := by
  intro q hq
  rcases cv_cases p a b c d k i with hc | hc | hc | hc | hc | hc <;> rw [hc] at hq ⊢ <;>
    first
      | exact Option.noConfusion hq
      | (injection hq with h2; subst h2; simp)

theorem firedOk_cnge (p : Platform) (s : Bool) (i : Option SuspensionPoint) :
    FiredOk (check_nvidia_gpu_early p s i) := by
  intro q hq
  rcases cnge_cases p s i with hc | hc | hc <;> rw [hc] at hq ⊢ <;>
    first
      | exact Option.noConfusion hq
      | (injection hq with h2; subst h2; simp)

theorem firedOk_pip (b : Bool) (i : Option SuspensionPoint) :
    FiredOk (pip_upgrade_step b i) := by
  intro q hq
  rcases pip_cases b i with hc | hc | hc <;> rw [hc] at hq ⊢ <;>
    first
      | exact Option.noConfusion hq
      | (injection hq with h2; subst h2; simp)

theorem firedOk_epv (v : Int × Int) : FiredOk (ensure_python_version v) := by
  intro q hq
  rcases epv_cases v with hc | hc <;> rw [hc] at hq ⊢ <;>
    exact Option.noConfusion hq

theorem firedOk_torch (p : Platform) (a b c : Bool) (i : Option SuspensionPoint) :
    FiredOk (ensure_torch_with_cuda p a b c i) := by
  intro q hq
  rcases torch_cases p a b c i with hc | hc | hc | hc | hc | hc | hc <;> rw [hc] at hq ⊢ <;>
    first
      | exact Option.noConfusion hq
      | (injection hq with h2; subst h2; simp)

theorem firedOk_verify (p : Platform) (a b c d k : Bool) (i : Option SuspensionPoint) :
    FiredOk (torch_verify p a b c d k i) := by
  intro q hq
  rcases verify_cases p a b c d k i with hc | hc | hc | hc <;> rw [hc] at hq ⊢ <;>
    first
      | exact Option.noConfusion hq
      | (injection hq with h2; subst h2; simp)

theorem firedOk_req (a b : Bool) (i : Option SuspensionPoint) :
    FiredOk (install_requirements a b i) := by
  intro q hq
  rcases req_cases a b i with hc | hc | hc | hc <;> rw [hc] at hq ⊢ <;>
    first
      | exact Option.noConfusion hq
      | (injection hq with h2; subst h2; simp)

theorem firedOk_ffmpeg (b : Bool) : FiredOk (check_ffmpeg b) := by
  intro q hq
  rcases ffmpeg_cases b with hc | hc <;> rw [hc] at hq ⊢ <;>
    exact Option.noConfusion hq

theorem firedOk_ldg (exe : String) (a : ArgsConfig) (dx : Int)
    (i : Option SuspensionPoint) : FiredOk (launch_demo_guarded exe a dx i) := by
  intro q hq
  rcases ldg_cases exe a dx i with hc | hc | hc <;> rw [hc] at hq ⊢ <;>
    first
      | exact Option.noConfusion hq
      | (injection hq with h2; subst h2; simp)

theorem firedOk_miv (w : World) : FiredOk (main_in_venv w) := by
  unfold main_in_venv
  exact firedOk_seq (firedOk_cnge w.platform w.nvidiaSmi w.interruptAt)
    (firedOk_seq (firedOk_pip w.pipUpgradeOk w.interruptAt)
      (firedOk_seq (firedOk_epv w.versionInfo)
        (firedOk_seq (firedOk_torch w.platform w.torchImportOk w.cudaAvailable
            w.torchInstallOk w.interruptAt)
          (firedOk_seq (firedOk_verify w.platform
              ((ensure_torch_with_cuda w.platform w.torchImportOk w.cudaAvailable
                w.torchInstallOk w.interruptAt).effects.contains .torchInstall)
              w.torchImportOk w.cudaAvailable w.torchImportOkPost w.cudaAvailablePost
              w.interruptAt)
            (firedOk_seq (firedOk_req w.reqFileExists w.reqInstallOk w.interruptAt)
              (firedOk_seq (firedOk_ffmpeg w.ffmpegFound)
                (firedOk_ldg w.sysExecutable w.args w.demoExit w.interruptAt)))))))

/-- A fired interrupt seen through the relaunch step. -/
theorem rae_fired_char {r : PRes} {ok : Bool} {q : SuspensionPoint} (hr : FiredOk r)
    (hq : (relaunch_and_exit r ok).fired = some q) :
    (q = .countdownSleep ∧ (relaunch_and_exit r ok).outcome = .exited 0 abortedByUserMsg)
    ∨ (q = .demoWait ∧ (relaunch_and_exit r ok).outcome = .exited 0 demoInterruptMsg)
    ∨ ((q ≠ .countdownSleep ∧ q ≠ .demoWait)
        ∧ (relaunch_and_exit r ok).outcome = .interruptEscape) := by
  unfold relaunch_and_exit at hq ⊢
  cases hf : r.flow
  case halt o =>
    simp only [hf] at hq ⊢
    rcases hr q hq with ⟨h1, h2⟩ | ⟨h1, h2⟩ | ⟨h1, h2⟩ <;> rw [hf] at h2
    · exact Or.inl ⟨h1, Flow.halt.inj h2⟩
    · exact Or.inr (Or.inl ⟨h1, Flow.halt.inj h2⟩)
    · exact Or.inr (Or.inr ⟨h1, Flow.halt.inj h2⟩)
  case cont =>
    simp only [hf] at hq
    split at hq
    all_goals rcases hr q hq with ⟨_, h2⟩ | ⟨_, h2⟩ | ⟨_, h2⟩ <;> rw [hf] at h2 <;>
      exact absurd h2 (by simp)

/-- A fired interrupt seen through `finalize`. -/
theorem finalize_fired_char {r : PRes} {q : SuspensionPoint} (hr : FiredOk r)
    (hq : (finalize r).fired = some q) :
    (q = .countdownSleep ∧ (finalize r).outcome = .exited 0 abortedByUserMsg)
    ∨ (q = .demoWait ∧ (finalize r).outcome = .exited 0 demoInterruptMsg)
    ∨ ((q ≠ .countdownSleep ∧ q ≠ .demoWait) ∧ (finalize r).outcome = .interruptEscape) := by
  unfold finalize at hq ⊢
  cases hf : r.flow
  case halt o =>
    simp only [hf] at hq ⊢
    rcases hr q hq with ⟨h1, h2⟩ | ⟨h1, h2⟩ | ⟨h1, h2⟩ <;> rw [hf] at h2
    · exact Or.inl ⟨h1, Flow.halt.inj h2⟩
    · exact Or.inr (Or.inl ⟨h1, Flow.halt.inj h2⟩)
    · exact Or.inr (Or.inr ⟨h1, Flow.halt.inj h2⟩)
  case cont =>
    simp only [hf] at hq
    rcases hr q hq with ⟨_, h2⟩ | ⟨_, h2⟩ | ⟨_, h2⟩ <;> rw [hf] at h2 <;>
      exact absurd h2 (by simp)

/-- The whole-run version of `FiredOk`: an interrupt fired at the
countdown or the demo wait exits 0; anywhere else it escapes uncaught. -/
theorem main_fired_char {w : World} {q : SuspensionPoint}
    (hq : (main w).fired = some q) :
    (q = .countdownSleep ∧ (main w).outcome = .exited 0 abortedByUserMsg)
    ∨ (q = .demoWait ∧ (main w).outcome = .exited 0 demoInterruptMsg)
    ∨ ((q ≠ .countdownSleep ∧ q ≠ .demoWait) ∧ (main w).outcome = .interruptEscape) := by
  unfold main at hq ⊢
  by_cases hg : relaunch_guard w.normcase (w.abspath w.sysExecutable)
      (get_venv_python w.platform w.abspath) = true
  · rw [if_pos hg] at hq ⊢
    exact rae_fired_char (firedOk_cv w.platform w.venvExists w.pyLauncher w.py311Ok
      w.python311Found w.venvCreateOk w.interruptAt) hq
  · rw [if_neg hg] at hq ⊢
    exact finalize_fired_char (firedOk_miv w) hq

/-! ### Concrete worlds used to instantiate and to refute claims -/

/-- A nominal healthy run on Linux, already inside the venv: everything
present and succeeding, no pending interrupt. -/
def baseWorld : World where
  platform := .linux
  normcase := id
  abspath := id
  sysExecutable := ".venv/bin/python"
  venvExists := true
  pyLauncher := false
  py311Ok := false
  python311Found := true
  venvCreateOk := true
  execvOk := true
  nvidiaSmi := true
  pipUpgradeOk := true
  versionInfo := (3, 11)
  torchImportOk := true
  cudaAvailable := true
  torchInstallOk := true
  torchImportOkPost := true
  cudaAvailablePost := true
  reqFileExists := true
  reqInstallOk := true
  ffmpegFound := true
  args := ⟨none, none, none, false⟩
  demoExit := 0
  interruptAt := none

/-- C3 counterexample world: no `nvidia-smi`, and the interrupt arrives
during the 3-second early-warning sleep (line 90), which no handler
wraps. -/
def wEarlySleep : World := {baseWorld with nvidiaSmi := false, interruptAt := some .earlyWarnSleep}

/-- CUDA unavailable; the interrupt arrives during the CPU countdown. -/
def wCountdown : World := {baseWorld with cudaAvailable := false, interruptAt := some .countdownSleep}

/-- Outside the venv (different interpreter path) and `os.execv` fails. -/
def wExecvFail : World := {baseWorld with sysExecutable := "/usr/bin/python3", execvOk := false}

/-- Inside an existing venv whose interpreter is Python 3.10, not 3.11. -/
def wWrongVersion : World := {baseWorld with versionInfo := (3, 10)}

/-- The requirements.txt manifest is absent. -/
def wNoManifest : World := {baseWorld with reqFileExists := false}

/-- The pip self-upgrade fails and the venv runs Python 3.12. -/
def wPipFail : World := {baseWorld with pipUpgradeOk := false, versionInfo := (3, 12)}

/-- Already inside the venv on Windows (case of the witness for C1). -/
def wWin : World := {baseWorld with platform := .win32, sysExecutable := ".venv/Scripts/python.exe"}

/-! ### Helper lemmas for the claims -/

theorem main_guard_false {w : World}
    (hg : relaunch_guard w.normcase (w.abspath w.sysExecutable)
      (get_venv_python w.platform w.abspath) = false) :
    main w = finalize (main_in_venv w) := by
  unfold main
  rw [if_neg (by simp [hg])]

theorem main_guard_true {w : World}
    (hg : relaunch_guard w.normcase (w.abspath w.sysExecutable)
      (get_venv_python w.platform w.abspath) = true) :
    main w = relaunch_and_exit
      (create_venv_if_needed w.platform w.venvExists w.pyLauncher w.py311Ok
        w.python311Found w.venvCreateOk w.interruptAt)
      w.execvOk := by
  unfold main
  rw [if_pos hg]

theorem miv_no_bootstrap_effects (w : World) :
    Effect.venvCreate ∉ (main_in_venv w).effects
    ∧ Effect.execvRelaunch ∉ (main_in_venv w).effects
    ∧ Effect.spawnWaitFallback ∉ (main_in_venv w).effects := by
  refine ⟨fun h => ?_, fun h => ?_, fun h => ?_⟩ <;>
    rcases miv_effects_allowed h with h | h | h | h | h <;> exact Effect.noConfusion h

theorem main_no_spawn (w : World) : Effect.spawnWaitFallback ∉ (main w).effects := by
  intro h
  rcases main_effects_allowed h with h | h | h | h | h | h | h <;> exact Effect.noConfusion h

/-- When torch imports and either CUDA is available or the platform is
macOS, `ensure_torch_with_cuda` does nothing at all. -/
theorem torch_noop (p : Platform) (cuda c : Bool) (i : Option SuspensionPoint)
    (h2 : cuda = true ∨ p = .darwin) :
    ensure_torch_with_cuda p true cuda c i = ⟨.cont, [], [], none⟩ := by
  rcases h2 with h2 | h2
  all_goals subst h2
  all_goals unfold ensure_torch_with_cuda
  all_goals repeat' split
  all_goals simp_all

/-- Under the same conditions the post-install verification block does
nothing, for any value of the did-install flag. -/
theorem verify_noop (p : Platform) (di cuda iP cP : Bool) (i : Option SuspensionPoint)
    (h2 : cuda = true ∨ p = .darwin) :
    torch_verify p di true cuda iP cP i = ⟨.cont, [], [], none⟩ := by
  rcases h2 with h2 | h2
  all_goals subst h2
  all_goals unfold torch_verify
  all_goals repeat' split
  all_goals simp_all

/-- Under the accelerated-or-macOS conditions, a post-bootstrap run can
only invoke the pip upgrade, the manifest install, and the demo. -/
theorem miv_effects_allowed_noTorch {w : World} (h1 : w.torchImportOk = true)
    (h2 : w.cudaAvailable = true ∨ w.platform = .darwin) {e : Effect}
    (h : e ∈ (main_in_venv w).effects) :
    e = .pipUpgrade ∨ e = .reqInstall ∨ e = .demoRun := by
  rcases miv_effects_mem h with h | h | h | h | h | h | h | h
  · rw [cnge_effects] at h
    simp at h
  · rw [pip_effects] at h
    simp at h
    exact Or.inl h
  · rw [epv_effects] at h
    simp at h
  · rw [h1, torch_noop w.platform w.cudaAvailable w.torchInstallOk w.interruptAt h2] at h
    simp at h
  · rw [h1, verify_noop w.platform _ w.cudaAvailable w.torchImportOkPost
      w.cudaAvailablePost w.interruptAt h2] at h
    simp at h
  · have h2 := req_effects_sub h
    tauto
  · rw [ffmpeg_effects] at h
    simp at h
  · rw [ldg_effects] at h
    simp at h
    tauto

theorem cnge_none_flow (p : Platform) (s : Bool) :
    (check_nvidia_gpu_early p s none).flow = .cont := by
  unfold check_nvidia_gpu_early
  repeat' split
  all_goals simp_all

theorem pip_none_flow (b : Bool) : (pip_upgrade_step b none).flow = .cont := by
  unfold pip_upgrade_step
  repeat' split
  all_goals simp_all

/-- With no pending interrupt, the first command a post-bootstrap run
invokes is the pip self-upgrade (it precedes the version check, the torch
check and every installer invocation in `main`). -/
theorem miv_effects_head {w : World} (hi : w.interruptAt = none) :
    (main_in_venv w).effects.head? = some .pipUpgrade := by
  unfold main_in_venv
  rw [hi]
  rw [seq_cont_eq _ (cnge_none_flow w.platform w.nvidiaSmi)]
  dsimp only
  rw [cnge_effects, seq_cont_eq _ (pip_none_flow w.pipUpgradeOk)]
  dsimp only
  rw [pip_effects]
  simp

/-! ### The claims -/

/-- C1. The relaunch guard is normalized-path inequality between the
running interpreter and the venv interpreter; whenever the normalized
paths agree (the post-replacement state) the guard is false and the run
performs no `os.execv`; conversely, a run that does perform `os.execv`
had a true guard — so at most one relaunch happens per logical run. -/
theorem C1_exactly_once_guard : ∀ w : World,
    (w.normcase (w.abspath w.sysExecutable)
        = w.normcase (get_venv_python w.platform w.abspath) →
      relaunch_guard w.normcase (w.abspath w.sysExecutable)
          (get_venv_python w.platform w.abspath) = false
      ∧ Effect.execvRelaunch ∉ (main w).effects)
    ∧ (Effect.execvRelaunch ∈ (main w).effects →
      relaunch_guard w.normcase (w.abspath w.sysExecutable)
          (get_venv_python w.platform w.abspath) = true) := by
  intro w
  constructor
  · intro h
    have hg : relaunch_guard w.normcase (w.abspath w.sysExecutable)
        (get_venv_python w.platform w.abspath) = false := by
      simp [relaunch_guard, h]
    refine ⟨hg, fun hmem => ?_⟩
    rw [main_guard_false hg, finalize_effects] at hmem
    exact (miv_no_bootstrap_effects w).2.1 hmem
  · intro hmem
    by_cases hg : relaunch_guard w.normcase (w.abspath w.sysExecutable)
        (get_venv_python w.platform w.abspath) = true
    · exact hg
    · simp only [Bool.not_eq_true] at hg
      rw [main_guard_false hg, finalize_effects] at hmem
      exact absurd hmem (miv_no_bootstrap_effects w).2.1

theorem C1_witness : Effect.execvRelaunch ∉ (main wWin).effects :=
  ((C1_exactly_once_guard wWin).1 (by decide)).2

/-- C3 counterexample. An interrupt delivered during the bounded
early-warning sleep (line 90, a suspension point of the pipeline) is not
caught anywhere: it escapes as an uncaught KeyboardInterrupt, which is
not a zero-exit termination — refuting the claim that interrupts at every
sleep or subprocess wait yield exit code 0. -/
theorem C3_counterexample :
    (main wEarlySleep).fired = some .earlyWarnSleep
    ∧ ((main wEarlySleep).outcome).isGracefulZero = false
    ∧ (main wEarlySleep).outcome = .interruptEscape := by decide

/-- C3 amended. An interrupt that fires at the CPU-fallback countdown or
at the demo wait terminates the program gracefully with exit code 0; an
interrupt that fires at any other suspension point (the venv-creation
subprocesses, the early-warning sleep, the pip upgrade, the torch
install, the requirements install) propagates as an uncaught
KeyboardInterrupt, i.e. a non-graceful termination. -/
theorem C3_interrupts_amended : ∀ (w : World) (q : SuspensionPoint),
    (main w).fired = some q →
    (((q = .countdownSleep ∨ q = .demoWait) → ((main w).outcome).isGracefulZero = true)
    ∧ (q ≠ .countdownSleep → q ≠ .demoWait → (main w).outcome = .interruptEscape)) := by
  intro w q hq
  rcases main_fired_char hq with ⟨h1, h2⟩ | ⟨h1, h2⟩ | ⟨⟨h1a, h1b⟩, h2⟩
  · exact ⟨fun _ => by rw [h2]; rfl, fun hne _ => absurd h1 hne⟩
  · exact ⟨fun _ => by rw [h2]; rfl, fun _ hne => absurd h1 hne⟩
  · refine ⟨fun hor => ?_, fun _ _ => h2⟩
    rcases hor with h | h
    · exact absurd h h1a
    · exact absurd h h1b

theorem C3_witness : ((main wCountdown).outcome).isGracefulZero = true :=
  (C3_interrupts_amended wCountdown .countdownSleep (by decide)).1 (Or.inl rfl)

/-- C4 counterexample. When `os.execv` fails, the launcher exits with
code 1 and the manual-activation guidance; its trace holds only the
failed relaunch attempt — no spawn-and-wait fallback is ever invoked, so
the child-exit-code-forwarding fallback claimed by the spec does not
exist in the code. -/
theorem C4_counterexample :
    (main wExecvFail).outcome = .exited 1 manualActivationMsg
    ∧ Effect.spawnWaitFallback ∉ (main wExecvFail).effects
    ∧ (main wExecvFail).effects = [.execvRelaunch] := by decide

/-- C4 amended. No run ever invokes a spawn-and-wait fallback; when the
guard is true, provisioning returned control and `os.execv` fails, the
launcher exits fatally with code 1 and manual-activation guidance (the
failed replacement attempt is the last effect). -/
theorem C4_no_fallback_amended :
    (∀ w : World, Effect.spawnWaitFallback ∉ (main w).effects)
    ∧ (∀ w : World,
        relaunch_guard w.normcase (w.abspath w.sysExecutable)
            (get_venv_python w.platform w.abspath) = true →
        (create_venv_if_needed w.platform w.venvExists w.pyLauncher w.py311Ok
            w.python311Found w.venvCreateOk w.interruptAt).flow = .cont →
        w.execvOk = false →
        (main w).outcome = .exited 1 manualActivationMsg
        ∧ Effect.execvRelaunch ∈ (main w).effects) := by
  refine ⟨main_no_spawn, fun w hg hcv hex => ?_⟩
  rw [main_guard_true hg]
  unfold relaunch_and_exit
  refine ⟨?_, ?_⟩ <;> simp [hcv, hex]

theorem C4_witness :
    (main wExecvFail).outcome = .exited 1 manualActivationMsg
    ∧ Effect.execvRelaunch ∈ (main wExecvFail).effects :=
  C4_no_fallback_amended.2 wExecvFail (by decide) (by decide) rfl

/-- C5 counterexample. With the venv directory present but holding a
Python 3.10 interpreter, the run aborts with exit code 1 at
`ensure_python_version` — an operation does abort because the existing
environment runs the wrong interpreter version, so a wrong-version
environment does not silently pass the whole run. -/
theorem C5_counterexample :
    wWrongVersion.venvExists = true
    ∧ (create_venv_if_needed wWrongVersion.platform wWrongVersion.venvExists
        wWrongVersion.pyLauncher wWrongVersion.py311Ok wWrongVersion.python311Found
        wWrongVersion.venvCreateOk wWrongVersion.interruptAt).effects = []
    ∧ (main wWrongVersion).outcome = .exited 1 versionFailMsg
    ∧ (main wWrongVersion).outcome ≠ .normal := by decide

/-- C5 amended. The existence check itself performs no validation: when
the directory exists, `create_venv_if_needed` returns immediately with no
command and no warning.  But after the relaunch, `ensure_python_version`
checks the running interpreter and exits 1 whenever its version differs
from 3.11, so a wrong-version environment is caught there rather than
silently passing. -/
theorem C5_no_validation_amended :
    (∀ (p : Platform) (a b c d : Bool) (i : Option SuspensionPoint),
        create_venv_if_needed p true a b c d i = ⟨.cont, [], [], none⟩)
    ∧ (∀ v : Int × Int, v ≠ (3, 11) →
        ensure_python_version v = ⟨.halt (.exited 1 versionFailMsg), [], [], none⟩)
    ∧ (main wWrongVersion).outcome = .exited 1 versionFailMsg := by
  refine ⟨fun p a b c d i => rfl, fun v hv => ?_, by decide⟩
  unfold ensure_python_version
  rw [if_neg hv]

theorem C5_witness :
    ensure_python_version (3, 10) = ⟨.halt (.exited 1 versionFailMsg), [], [], none⟩ :=
  C5_no_validation_amended.2.1 (3, 10) (by decide)

/-- C6. Provisioning is idempotent: with the environment directory
present, `create_venv_if_needed` returns immediately, invoking nothing;
and a second run, whose interpreter path already equals the venv path,
performs zero creation commands and zero relaunch attempts. -/
theorem C6_idempotent :
    (∀ (p : Platform) (a b c d : Bool) (i : Option SuspensionPoint),
        create_venv_if_needed p true a b c d i = ⟨.cont, [], [], none⟩)
    ∧ (∀ w : World,
        w.normcase (w.abspath w.sysExecutable)
            = w.normcase (get_venv_python w.platform w.abspath) →
        Effect.venvCreate ∉ (main w).effects ∧ Effect.execvRelaunch ∉ (main w).effects) := by
  refine ⟨fun p a b c d i => rfl, fun w h => ?_⟩
  have hg : relaunch_guard w.normcase (w.abspath w.sysExecutable)
      (get_venv_python w.platform w.abspath) = false := by
    simp [relaunch_guard, h]
  rw [main_guard_false hg, finalize_effects]
  exact ⟨(miv_no_bootstrap_effects w).1, (miv_no_bootstrap_effects w).2.1⟩

theorem C6_witness :
    Effect.venvCreate ∉ (main baseWorld).effects
    ∧ Effect.execvRelaunch ∉ (main baseWorld).effects :=
  C6_idempotent.2 baseWorld (by decide)

/-- C7. When torch imports and CUDA is available (PresentAccelerated), or
on macOS where the accelerator check is skipped and the backend merely
loads, `ensure_torch_with_cuda` succeeds immediately without running the
installer, and the whole run shows neither a torch install nor the abort
countdown. -/
theorem C7_accel_short_circuit : ∀ w : World,
    w.torchImportOk = true →
    (w.cudaAvailable = true ∨ w.platform = .darwin) →
    ensure_torch_with_cuda w.platform w.torchImportOk w.cudaAvailable
        w.torchInstallOk w.interruptAt = ⟨.cont, [], [], none⟩
    ∧ Effect.torchInstall ∉ (main w).effects
    ∧ Effect.countdown ∉ (main w).effects := by
  intro w h1 h2
  have hT : ensure_torch_with_cuda w.platform w.torchImportOk w.cudaAvailable
      w.torchInstallOk w.interruptAt = ⟨.cont, [], [], none⟩ := by
    rw [h1]
    exact torch_noop w.platform w.cudaAvailable w.torchInstallOk w.interruptAt h2
  refine ⟨hT, fun hmem => ?_, fun hmem => ?_⟩ <;>
  · rcases main_effects_mem hmem with (h | h) | h
    · exact Effect.noConfusion (cv_effects_sub h)
    · exact Effect.noConfusion h
    · rcases miv_effects_allowed_noTorch h1 h2 h with h | h | h <;> exact Effect.noConfusion h

theorem C7_witness :
    Effect.torchInstall ∉ (main baseWorld).effects
    ∧ Effect.countdown ∉ (main baseWorld).effects :=
  ⟨(C7_accel_short_circuit baseWorld rfl (Or.inl rfl)).2.1,
   (C7_accel_short_circuit baseWorld rfl (Or.inl rfl)).2.2⟩

/-- C8. A downstream exit with any nonzero code n makes the launcher halt
via `sys.exit` with its own nonzero code 1 and a message that wraps and
references n verbatim; a downstream exit of 0 is not fatal (control
continues). -/
theorem C8_downstream_propagation : ∀ (exe : String) (a : ArgsConfig) (n : Int),
    (n ≠ 0 →
      (launch_demo exe a n none).flow
          = .halt (.exited 1 (demoFailMsg (launch_cmd exe a) n))
      ∧ ∃ s t, demoFailMsg (launch_cmd exe a) n = s ++ toString n ++ t)
    ∧ (launch_demo exe a 0 none).flow = .cont := by
  intro exe a n
  constructor
  · intro hn
    constructor
    · unfold launch_demo
      rw [if_neg (fun h => Option.noConfusion h), if_neg hn]
    · exact ⟨demoFailPre (launch_cmd exe a), ".", rfl⟩
  · rfl

theorem C8_witness :
    (launch_demo "python" ⟨none, none, none, false⟩ 3 none).flow
        = .halt (.exited 1 (demoFailMsg (launch_cmd "python" ⟨none, none, none, false⟩) 3))
    ∧ (launch_demo "python" ⟨none, none, none, false⟩ 0 none).flow = .cont :=
  ⟨((C8_downstream_propagation "python" ⟨none, none, none, false⟩ 3).1 (by decide)).1,
   (C8_downstream_propagation "python" ⟨none, none, none, false⟩ 0).2⟩

/-- C9. The manifest installer is non-fatal exactly when the manifest is
absent: an absent file yields a warning only and no install, and the
pipeline continues to the launch; a present file with a failing install
is fatal with exit 1 and the manifest context; a present file with a
succeeding install logs and continues. -/
theorem C9_manifest :
    (∀ (ok : Bool) (i : Option SuspensionPoint),
        install_requirements false ok i = ⟨.cont, [], [.reqMissing], none⟩)
    ∧ install_requirements true false none = ⟨.halt (.exited 1 reqFailMsg), [.reqInstall], [], none⟩
    ∧ install_requirements true true none = ⟨.cont, [.reqInstall], [], none⟩
    ∧ (main wNoManifest).outcome = .normal
    ∧ Warn.reqMissing ∈ (main wNoManifest).warns
    ∧ Effect.demoRun ∈ (main wNoManifest).effects
    ∧ Effect.reqInstall ∉ (main wNoManifest).effects := by
  exact ⟨fun ok i => rfl, rfl, rfl, by decide, by decide, by decide, by decide⟩

/-- C10. After the bootstrap, the pip self-upgrade subprocess runs as the
very first command — before the version check and every verification or
install step; its control flow never depends on its success (failure is a
warning only, the pipeline continues), unlike the torch install and the
manifest install, whose failures are fatal.  In the concrete failing
world the run still reaches (and fails at) the later version check while
recording the warning. -/
theorem C10_pip_upgrade_warning :
    (∀ (ok : Bool) (i : Option SuspensionPoint),
        (pip_upgrade_step ok i).flow
          = if i = some .pipUpgradeRun then .halt .interruptEscape else .cont)
    ∧ (pip_upgrade_step false none).warns = [.pipUpgradeFailed]
    ∧ (∀ w : World,
        relaunch_guard w.normcase (w.abspath w.sysExecutable)
            (get_venv_python w.platform w.abspath) = false →
        w.interruptAt = none →
        (main w).effects.head? = some .pipUpgrade)
    ∧ (main wPipFail).outcome = .exited 1 versionFailMsg
    ∧ Warn.pipUpgradeFailed ∈ (main wPipFail).warns
    ∧ Effect.pipUpgrade ∈ (main wPipFail).effects
    ∧ (ensure_torch_with_cuda .linux false false false none).flow
        = .halt (.exited 1 torchInstallFailMsg)
    ∧ (install_requirements true false none).flow = .halt (.exited 1 reqFailMsg) := by
  refine ⟨?_, rfl, fun w hg hi => ?_, by decide, by decide, by decide, rfl, rfl⟩
  · intro ok i
    unfold pip_upgrade_step
    repeat' split
    all_goals simp_all
  · rw [main_guard_false hg, finalize_effects]
    exact miv_effects_head hi

theorem C10_witness : (main baseWorld).effects.head? = some .pipUpgrade :=
  C10_pip_upgrade_warning.2.2.1 baseWorld (by decide) rfl

end StartPy
